import Mathlib

/-!
Shallow embedding of `src/run_prog.py`, the simulated FPGA diagnostic
console.  Every routine of the script is translated to a pure Lean
function that returns the list of strings the routine prints; each call
to the `random` module becomes an explicit seed parameter:

* `random.choice([x, y])` on seed `r` picks `x` when `r % 2 = 0`;
* `random.randint(a, b)` on seed `r` yields `a + r % (b - a + 1)`;
* `random.getrandbits(8)` on seed `r` yields `r % 256`.

Python machine arithmetic is `Nat`/`Int` with the explicit masks the
source writes (`&&& 0xFFFF`, `&&& 0xFFFFFFFF`); the float arithmetic of
`read_temp` (a nominal value plus `jitter * 0.01`) is embedded as exact
rational arithmetic, under which every intermediate value of the script
is a two-decimal number.  Process termination (`sys.exit`) is an
explicit `Option Nat` exit code in the result of `program_device` and of
the menu loop.
-/

namespace RunProg

/-- Python `pat in s` substring test. -/
def pyIn (pat s : String) : Bool := decide (pat.data <:+: s.data)

/-- Python `s.lower()` (ASCII case folding, as used on menu input). -/
def pyLower (s : String) : String := String.mk (s.data.map Char.toLower)

/-- `random.choice([x, y])` driven by a seed. -/
def choice2 (x y r : Nat) : Nat := if r % 2 = 0 then x else y

/-- `random.choice([True, False])` driven by a seed. -/
def choiceBool (r : Nat) : Bool := r % 2 = 0

/-- `random.randint(a, b)` driven by a seed: always in `[a, b]`. -/
def randint (a b : Int) (r : Nat) : Int := a + ((r % (b - a + 1).toNat : ℕ) : Int)

/-- `random.getrandbits(8)` driven by a seed. -/
def getrandbits8 (r : Nat) : Nat := r % 256

/-- Python `hex(n)` for `n ≥ 0`: `0x` followed by lowercase hex digits. -/
def pyHex (n : Nat) : String := "0x" ++ String.mk (Nat.toDigits 16 n)

/-- Python format `{n:X}`: uppercase hex digits, no padding. -/
def fmtHexUpper (n : Nat) : String := String.mk ((Nat.toDigits 16 n).map Char.toUpper)

/-- Zero-pad a digit list on the left to width `w`. -/
def padLeft0 (w : Nat) (cs : List Char) : List Char :=
  List.replicate (w - cs.length) '0' ++ cs

/-- Python format `{n:04X}` / `{n:08X}`: uppercase hex, zero-padded to width `w`. -/
def fmtHexUpperW (w n : Nat) : String :=
  String.mk (padLeft0 w ((Nat.toDigits 16 n).map Char.toUpper))

/-- Python format `{q:.2f}` for a nonnegative rational that is an exact
multiple of `1/100` (the only values the script formats this way). -/
def fmt2f (q : ℚ) : String :=
  let c : Int := ⌊q * 100⌋
  toString (c / 100) ++ "." ++
    (if c % 100 < 10 then "0" ++ toString (c % 100) else toString (c % 100))

/-- Python `repr` of a list of strings, as printed for the register dump. -/
def pyStrList (xs : List String) : String :=
  "[" ++ String.intercalate ", " (xs.map (fun s => "\x27" ++ s ++ "\x27")) ++ "]"

/-- A banner line of `n` equals signs, as printed around the titles. -/
def eqBar (n : Nat) : String := String.mk (List.replicate n '=')

/-! ## Diagnostic operations (lines 187-249 of the source) -/

/-- `raw_status = random.choice([0x0001, 0x0000])` in `check_hbm_status`. -/
def hbm_raw_status (r : Nat) : Nat := choice2 0x0001 0x0000 r

/-- `reg_dump = [hex((raw_status << i) & 0xFFFF) for i in range(4)]`. -/
def hbm_reg_dump (r : Nat) : List String :=
  (List.range 4).map (fun i => pyHex ((hbm_raw_status r <<< i) &&& 0xFFFF))

/-- `calibrated = bool(raw_status & 0x1)`. -/
def hbm_calibrated (r : Nat) : Bool := (hbm_raw_status r &&& 0x1) != 0

/-- Output of `check_hbm_status` (menu command 1). -/
def check_hbm_status (r : Nat) : List String :=
  ["\n[CMD] Querying HBM Controller (AXI Addr: 0x10000)...",
   "[AXI-RD] Register dump: " ++ pyStrList (hbm_reg_dump r),
   "[RECV] HBM Status Register: 0x" ++ fmtHexUpperW 4 (hbm_raw_status r) ++ " (" ++
     (if hbm_calibrated r then "Calibrated, OK" else "Idle") ++ ")",
   if hbm_calibrated r then "[INFO] HBM Memory appears to be stable."
   else "[WARN] HBM not initialized!"]

/-- `payload = bytearray(random.getrandbits(8) for _ in range(256))`. -/
def pcie_payload (bits : Nat → Nat) : List Nat :=
  (List.range 256).map (fun i => getrandbits8 (bits i))

/-- `checksum_tx = sum(payload) & 0xFFFF`. -/
def pcie_checksum_tx (bits : Nat → Nat) : Nat := (pcie_payload bits).sum &&& 0xFFFF

/-- `payload_rx = bytes(payload)`: a byte-for-byte copy of the same buffer. -/
def pcie_payload_rx (bits : Nat → Nat) : List Nat := pcie_payload bits

/-- `checksum_rx = sum(payload_rx) & 0xFFFF`. -/
def pcie_checksum_rx (bits : Nat → Nat) : Nat := (pcie_payload_rx bits).sum &&& 0xFFFF

/-- The PASS line of the PCIe test, printed with the received checksum. -/
def pcie_pass_line (ck : Nat) : String :=
  "[RECV] PCIe Link Test: PASS (Integrity OK, checksum=0x" ++ fmtHexUpperW 4 ck ++ ")"

/-- The FAIL line of the PCIe test. -/
def pcie_fail_line : String := "[FAIL] Data mismatch detected in loopback test."

/-- Output of `run_pcie_test` (menu command 2). -/
def run_pcie_test (bits : Nat → Nat) : List String :=
  ["\n[CMD] Initiating PCIe Gen3 x16 loopback test...",
   "[INFO] Sending 1MB test payload..."] ++
  (List.range 11).map (fun i => "\r[INFO] Progress: " ++ toString (i * 10) ++ "%...") ++
  ["\n[INFO] Payload received, verifying..."] ++
  (if pcie_checksum_tx bits = pcie_checksum_rx bits then
    [pcie_pass_line (pcie_checksum_rx bits)]
   else [pcie_fail_line])

/-- `adc_fpga = 0x3E80 + random.randint(-16, 16)`. -/
def adc_fpga (r : Nat) : Int := 0x3E80 + randint (-16) 16 r

/-- `adc_hbm = 0x3B60 + random.randint(-8, 8)`. -/
def adc_hbm (r : Nat) : Int := 0x3B60 + randint (-8) 8 r

/-- `temp_fpga = 62.5 + (adc_fpga - 0x3E80) * 0.01` (exact arithmetic). -/
def temp_fpga (r : Nat) : ℚ := 62.5 + ((adc_fpga r - 0x3E80 : Int) : ℚ) * 0.01

/-- `temp_hbm = 58.2 + (adc_hbm - 0x3B60) * 0.01` (exact arithmetic). -/
def temp_hbm (r : Nat) : ℚ := 58.2 + ((adc_hbm r - 0x3B60 : Int) : ℚ) * 0.01

/-- Output of `read_temp` (menu command 3). -/
def read_temp (rF rH : Nat) : List String :=
  ["\n[CMD] Reading thermal sensor array...",
   "[AXI-RD] FPGA ADC raw = 0x" ++ fmtHexUpper (adc_fpga rF).toNat,
   "[AXI-RD] HBM  ADC raw = 0x" ++ fmtHexUpper (adc_hbm rH).toNat,
   "[RECV] FPGA Die Temperature: " ++ fmt2f (temp_fpga rF) ++ " C",
   "[RECV] HBM Stack Temperature: " ++ fmt2f (temp_hbm rH) ++ " C"]

/-- `buf = bytearray(random.getrandbits(8) for _ in range(4096))`. -/
def send_buf (bits : Nat → Nat) : List Nat :=
  (List.range 4096).map (fun i => getrandbits8 (bits i))

/-- `checksum = sum(buf) & 0xFFFFFFFF`. -/
def send_checksum (bits : Nat → Nat) : Nat := (send_buf bits).sum &&& 0xFFFFFFFF

/-- `latency = 150 + random.randint(-10, 10)`. -/
def send_latency (r : Nat) : Int := 150 + randint (-10) 10 r

/-- Output of `send_data` (menu command 4). -/
def send_data (bits : Nat → Nat) (rLat : Nat) : List String :=
  ["\n[CMD] Allocating buffer and sending 4KB data to Kernel_0...",
   "[INFO] Data transfer complete. Buffer checksum=0x" ++ fmtHexUpperW 8 (send_checksum bits),
   "[RECV] Kernel_0 returned status OK. Latency: " ++ toString (send_latency rLat) ++ " us."]

/-! ## Startup sequencer (lines 62-136 of the source) -/

/-- `simulate_xilinx_command`: the coin flip is the explicit `flip`
argument; the function returns its printed lines and the flip. -/
def simulate_xilinx_command (flip : Bool) (command success_msg error_msg : String) :
    List String × Bool :=
  if flip then (["[SIM] " ++ command, "[SUCCESS] " ++ success_msg], true)
  else (["[SIM] " ++ command, "[ERROR] " ++ error_msg], false)

/-- The command string of the `k`-th simulated step (0-indexed), built
from the configured target device and the located bitstream file. -/
def step_cmd (target bitfile : String) : Nat → String
  | 0 => "xbflash --device " ++ target ++ " --init"
  | 1 => "xbtutil --validate --bitstream " ++ bitfile
  | 2 => "xbflash --device " ++ target ++ " --init"
  | 3 => "xbflash --program --bitstream " ++ bitfile ++ " --device " ++ target
  | _ => "xbtutil --verify --bitstream " ++ bitfile

/-- The success message of the `k`-th simulated step. -/
def step_success : Nat → String
  | 0 => "Device initialized successfully."
  | 1 => "Bitstream integrity check passed."
  | 2 => "Device initialized successfully."
  | 3 => "Programming command sent to hardware."
  | _ => "Verification successful. Device configured."

/-- The error message of the `k`-th simulated step. -/
def step_error : Nat → String
  | 0 => "Initialization failed. Check JTAG connection."
  | 1 => "Validation failed. Check bitstream syntax."
  | 2 => "Initialization failed. Check JTAG connection."
  | 3 => "Programming failed. Verify device ID."
  | _ => "Verification failed. Re-run programming."

/-- `progress_bar(duration, message)`: the 51 strings written to stdout. -/
def progress_bar (message : String) : List String :=
  (List.range 51).map (fun i =>
    "\r" ++ message ++ " [" ++ String.mk (List.replicate i '█') ++
    String.mk (List.replicate (50 - i) ' ') ++ "] " ++ toString (i * 100 / 50) ++ "%")

/-- Result of a `program_device` run: the printed lines, the indices of
the coin flips consumed (one per `simulate_xilinx_command` call, in
order), and the `sys.exit` code (`none` when the function returns). -/
structure PDResult where
  trace : List String
  calls : List Nat
  exit : Option Nat
  deriving DecidableEq, Repr

/-- `program_device`, with the coin flips of the successive
`simulate_xilinx_command` calls given by `flips` and the step-2
`os.path.exists(BITSTREAM_FILE)` check given by `bitExists`. -/
def program_device (target bitfile : String) (flips : Nat → Bool) (bitExists : Bool) :
    PDResult :=
  let t0 : List String :=
    [eqBar 58,
     "  Alveo U50 Bitstream Programming (Xilinx Tools)",
     eqBar 58,
     "\n[STEP 1/5] Verifying XRT environment..."]
  let r1 := simulate_xilinx_command (flips 0) (step_cmd target bitfile 0)
    (step_success 0) (step_error 0)
  let t1 := t0 ++ r1.1
  if ¬ r1.2 then ⟨t1, [0], some 1⟩ else
  let t2a := t1 ++ ["[STEP 2/5] Verifying build output directory \x27\x7bOUTPUT_DIR\x7d\x27..."]
  if ¬ bitExists then
    ⟨t2a ++ ["[ERROR] Bitstream \x27" ++ bitfile ++ "\x27 not found. Generate with Vivado first."],
     [0], some 1⟩ else
  let r2 := simulate_xilinx_command (flips 1) (step_cmd target bitfile 1)
    (step_success 1) (step_error 1)
  let t2 := t2a ++ r2.1
  if ¬ r2.2 then ⟨t2, [0, 1], some 1⟩ else
  let t3a := t2 ++ ["\n[STEP 3/5] Initializing device with xbflash..."]
  let r3 := simulate_xilinx_command (flips 2) (step_cmd target bitfile 2)
    (step_success 2) (step_error 2)
  let t3 := t3a ++ r3.1
  if ¬ r3.2 then ⟨t3, [0, 1, 2], some 1⟩ else
  let t4a := t3 ++ ["\n[STEP 4/5] Programming bitstream to Alveo U50..."]
  let r4 := simulate_xilinx_command (flips 3) (step_cmd target bitfile 3)
    (step_success 3) (step_error 3)
  let t4b := t4a ++ r4.1
  if ¬ r4.2 then ⟨t4b, [0, 1, 2, 3], some 1⟩ else
  let t4 := t4b ++ progress_bar "Transferring bitstream via xbflash..."
  let t5a := t4 ++ ["\n[STEP 5/5] Verifying programming with xbtutil..."]
  let r5 := simulate_xilinx_command (flips 4) (step_cmd target bitfile 4)
    (step_success 4) (step_error 4)
  let t5 := t5a ++ r5.1
  if r5.2 then
    ⟨t5 ++ ["\n" ++ eqBar 58,
            "  Programming Completed Successfully.",
            eqBar 58],
     [0, 1, 2, 3, 4], none⟩
  else ⟨t5 ++ ["[ERROR] Programming verification failed."], [0, 1, 2, 3, 4], some 1⟩

/-! ## Device info and menu loop (lines 141-268 of the source) -/

/-- The device-identity record shown in the header. -/
structure DeviceInfo where
  device : String
  firmware : String
  connection : String
  serial : String
  deriving DecidableEq, Repr

/-- Outcome of the `subprocess.run(["xbutil", "examine"], ...)` query:
`failure` covers every exception caught by `get_device_info` (missing
tool, non-zero exit status, or any error while parsing); `success`
carries `result.stdout.splitlines()`. -/
inductive QueryResult where
  | failure : QueryResult
  | success (stdout : List String) : QueryResult

/-- The fixed record returned by the `except` branch of `get_device_info`. -/
def fallback_info : DeviceInfo :=
  ⟨"xilinx_u50_gen3x16_xdma_201920_3", "alveo_u50_top.bit",
   "JTAG-over-PCIe", "21340D8XYZ123"⟩

/-- `get_device_info`: parse the query output or fall back to fixed values. -/
def get_device_info : QueryResult → DeviceInfo
  | .failure => fallback_info
  | .success lines =>
    let dev_line := lines.find? (fun l => pyIn "Device" l)
    let sn_line := lines.find? (fun l => pyIn "S/N" l)
    { device := match dev_line with
        | some l => ((l.splitOn ":").getLastD "").trim
        | none => "xilinx_u50_gen3x16_xdma_201920_3"
      firmware := "alveo_u50_top.bit"
      connection := "JTAG-over-PCIe"
      serial := match sn_line with
        | some l => ((l.splitOn ":").getLastD "").trim
        | none => "21340D8XYZ123" }

/-- Lines printed by `print_header`. -/
def print_header (d : DeviceInfo) : List String :=
  [eqBar 57,
   "==        Alveo U50 Live Diagnostics Interface         ==",
   eqBar 57,
   "Target Device: " ++ d.device,
   "Firmware:      " ++ d.firmware,
   "Connection:    " ++ d.connection,
   "Serial No.:    " ++ d.serial,
   "\n"]

/-- Lines printed by `main_menu`, ending with the `>> ` input prompt. -/
def main_menu_lines : List String :=
  ["Select a diagnostic command:",
   "  [1] Check HBM (High Bandwidth Memory) Status",
   "  [2] Run PCIe Link Self-Test",
   "  [3] Read On-Chip Temperature Sensors",
   "  [4] Send test data to processing kernel",
   "  [q] Quit",
   ">> "]

/-- The branch the `if/elif` chain of the `__main__` loop selects for an
input line. -/
inductive MenuAction where
  | cmd1 | cmd2 | cmd3 | cmd4 | quit | invalid
  deriving DecidableEq, Repr

/-- The `if/elif` dispatch on the input line `choice`. -/
def dispatch (choice : String) : MenuAction :=
  if choice = "1" then .cmd1
  else if choice = "2" then .cmd2
  else if choice = "3" then .cmd3
  else if choice = "4" then .cmd4
  else if pyLower choice = "q" then .quit
  else .invalid

/-- The random seeds one menu iteration can consume. -/
structure IterRand where
  hbm : Nat
  pcie : Nat → Nat
  tempF : Nat
  tempH : Nat
  send : Nat → Nat
  lat : Nat

/-- Output of the selected diagnostic (or of the `else` branch). -/
def runCommand (ir : IterRand) : MenuAction → List String
  | .cmd1 => check_hbm_status ir.hbm
  | .cmd2 => run_pcie_test ir.pcie
  | .cmd3 => read_temp ir.tempF ir.tempH
  | .cmd4 => send_data ir.send ir.lat
  | .quit => []
  | .invalid => ["\nInvalid option."]

/-- The `while True` menu loop over a list of stdin lines: each
iteration reads one choice line and, unless it quits, one acknowledgment
line for `input("\nPress [Enter] ...")`.  Result: the printed lines and
the exit code (`some 0` after the quit branch falls off the script;
`none` when stdin is exhausted, where Python would raise `EOFError`). -/
def run_menu (d : DeviceInfo) (rands : Nat → IterRand) :
    List String → List String × Option Nat
  | [] => ([], none)
  | choice :: rest =>
    let pre := print_header d ++ main_menu_lines
    if dispatch choice = .quit then
      (pre ++ ["\nDisconnecting from device..."], some 0)
    else
      let ops := runCommand (rands 0) (dispatch choice)
      match rest with
      | [] => (pre ++ ops ++ ["\nPress [Enter] to return to the menu..."], none)
      | _ack :: rest2 =>
        let tl := run_menu d (fun n => rands (n + 1)) rest2
        (pre ++ ops ++ ["\nPress [Enter] to return to the menu..."] ++ tl.1, tl.2)

/-! ## Module-level imports (lines 1-5 of the source) -/

/-- The modules imported by `run_prog.py`. -/
def run_prog_imports : List String := ["time", "os", "sys", "random", "subprocess"]

/-- The module the artifact-scan expression
`glob.glob(os.path.join(BIT_DIR, "*.bit"))` at line 35 resolves its
first name in. -/
def bit_scan_module : String := "glob"

/-- The status keywords named by the specification. -/
def statusKeywords : List String := ["PASS", "FAIL", "OK", "Calibrated", "Idle"]

/-- Whether an output line contains one of the status keywords. -/
def hasStatusKeyword (l : String) : Bool := statusKeywords.any (fun k => pyIn k l)

/-- A concrete device-identity record, used to instantiate witnesses. -/
def devinfo0 : DeviceInfo := ⟨"dev", "fw", "conn", "sn"⟩

/-- A concrete seed assignment, used to instantiate witnesses. -/
def rands0 : Nat → IterRand := fun _ => ⟨0, fun _ => 0, 0, 0, fun _ => 0, 0⟩

/-! ## Helper lemmas -/

/-- Substring containment is preserved by appending on the right. -/
lemma pyIn_append_left (pat a b : String) (h : pyIn pat a = true) :
    pyIn pat (a ++ b) = true := by
  unfold pyIn at h ⊢
  rw [decide_eq_true_eq] at h ⊢
  rw [String.data_append]
  obtain ⟨u, v, huv⟩ := h
  exact ⟨u, v ++ b.data, by rw [← huv]; simp⟩

/-- A line containing `OK` contains a status keyword. -/
lemma hasStatusKeyword_of_OK (l : String) (h : pyIn "OK" l = true) :
    hasStatusKeyword l = true := by
  simp [hasStatusKeyword, statusKeywords, List.any, h]

/-- A line containing `PASS` contains a status keyword. -/
lemma hasStatusKeyword_of_PASS (l : String) (h : pyIn "PASS" l = true) :
    hasStatusKeyword l = true := by
  simp [hasStatusKeyword, statusKeywords, List.any, h]

/-- The PASS line is never the FAIL line (their lengths differ). -/
lemma pcie_pass_ne_fail (ck : Nat) : pcie_pass_line ck ≠ pcie_fail_line := by
  intro h
  have hl := congrArg String.length h
  rw [pcie_pass_line, pcie_fail_line, String.length_append, String.length_append] at hl
  rw [show ("[RECV] PCIe Link Test: PASS (Integrity OK, checksum=0x" : String).length = 54
        from rfl,
      show (")" : String).length = 1 from rfl,
      show ("[FAIL] Data mismatch detected in loopback test." : String).length = 47
        from rfl] at hl
  omega

/-- The PCIe test output is the fixed prefix followed by the PASS line. -/
lemma run_pcie_test_eq (bits : Nat → Nat) :
    run_pcie_test bits =
      (["\n[CMD] Initiating PCIe Gen3 x16 loopback test...",
        "[INFO] Sending 1MB test payload..."] ++
       (List.range 11).map (fun i => "\r[INFO] Progress: " ++ toString (i * 10) ++ "%...") ++
       ["\n[INFO] Payload received, verifying..."]) ++
      [pcie_pass_line (pcie_checksum_rx bits)] := by
  have htx : pcie_checksum_tx bits = pcie_checksum_rx bits := rfl
  simp [run_pcie_test, htx]

/-- The PASS line occurs in the PCIe test output. -/
lemma pcie_pass_mem (bits : Nat → Nat) :
    pcie_pass_line (pcie_checksum_rx bits) ∈ run_pcie_test bits := by
  rw [run_pcie_test_eq]
  exact List.mem_append_right _ (List.mem_singleton_self _)

/-! ## Claims -/

/-- C5: for every random seed, the FPGA temperature lies in
[62.5 - 16·0.01, 62.5 + 16·0.01] = [62.34, 62.66] and the HBM
temperature lies in [58.2 - 8·0.01, 58.2 + 8·0.01] = [58.12, 58.28]. -/
theorem tempWithinBounds (rF rH : Nat) :
    (62.34 : ℚ) ≤ temp_fpga rF ∧ temp_fpga rF ≤ 62.66 ∧
    (58.12 : ℚ) ≤ temp_hbm rH ∧ temp_hbm rH ≤ 58.28 := by
  have hF : rF % 33 < 33 := Nat.mod_lt _ (by norm_num)
  have hH : rH % 17 < 17 := Nat.mod_lt _ (by norm_num)
  have hF32 : ((rF % 33 : ℕ) : ℚ) ≤ 32 := by exact_mod_cast Nat.lt_succ_iff.mp hF
  have hH16 : ((rH % 17 : ℕ) : ℚ) ≤ 16 := by exact_mod_cast Nat.lt_succ_iff.mp hH
  have hF0 : (0 : ℚ) ≤ ((rF % 33 : ℕ) : ℚ) := Nat.cast_nonneg _
  have hH0 : (0 : ℚ) ≤ ((rH % 17 : ℕ) : ℚ) := Nat.cast_nonneg _
  have eF : temp_fpga rF = 62.5 + (-16 + ((rF % 33 : ℕ) : ℚ)) * 0.01 := by
    unfold temp_fpga adc_fpga randint
    norm_num
    norm_cast
  have eH : temp_hbm rH = 58.2 + (-8 + ((rH % 17 : ℕ) : ℚ)) * 0.01 := by
    unfold temp_hbm adc_hbm randint
    norm_num
    norm_cast
  rw [eF, eH]
  norm_num
  refine ⟨by linarith, by linarith, by linarith, by linarith⟩

/-- C6: the raw HBM status word is always 0x0001 or 0x0000, the
calibration flag is its low bit, and the register dump is the word
shifted by 0..3, masked to 16 bits. -/
theorem hbmStatusWord (r : Nat) :
    (hbm_raw_status r = 1 ∨ hbm_raw_status r = 0) ∧
    hbm_calibrated r = decide (hbm_raw_status r % 2 = 1) ∧
    hbm_reg_dump r = (List.range 4).map (fun i => pyHex (hbm_raw_status r * 2 ^ i % 65536)) := by
  by_cases h : r % 2 = 0
  · have hr : hbm_raw_status r = 1 := by simp [hbm_raw_status, choice2, h]
    refine ⟨Or.inl hr, ?_, ?_⟩
    · simp only [hbm_calibrated, hr]
      decide
    · simp only [hbm_reg_dump, hr]
      decide
  · have hr : hbm_raw_status r = 0 := by simp [hbm_raw_status, choice2, h]
    refine ⟨Or.inr hr, ?_, ?_⟩
    · simp only [hbm_calibrated, hr]
      decide
    · simp only [hbm_reg_dump, hr]
      decide

/-- C8: the artifact-directory scan at line 35 cannot run as written:
it calls `glob.glob`, but `glob` is not among the modules the script
imports, so startup raises `NameError` before any scan or selection of
a most-recently-modified `.bit` file happens. -/
theorem bitScanModuleMissing : bit_scan_module ∉ run_prog_imports := by decide

/-- C9: `get_device_info` is total; every exception yields the fixed
fallback record; the firmware and connection fields are these fixed
constants on every outcome; and a missing `Device` or `S/N` line makes
the corresponding field fall back to its fixed default. -/
theorem deviceInfoFallback (q : QueryResult) :
    (get_device_info q).firmware = "alveo_u50_top.bit" ∧
    (get_device_info q).connection = "JTAG-over-PCIe" ∧
    get_device_info QueryResult.failure = fallback_info ∧
    (∀ lines, lines.find? (fun l => pyIn "Device" l) = none →
      (get_device_info (QueryResult.success lines)).device = fallback_info.device) ∧
    (∀ lines, lines.find? (fun l => pyIn "S/N" l) = none →
      (get_device_info (QueryResult.success lines)).serial = fallback_info.serial) := by
  refine ⟨?_, ?_, rfl, ?_, ?_⟩
  · cases q <;> rfl
  · cases q <;> rfl
  · intro lines h
    simp [get_device_info, fallback_info, h]
  · intro lines h
    simp [get_device_info, fallback_info, h]

/-- C1: when the bitstream file is present, the first step whose coin
flip fails makes `program_device` print the error message of that step and
exit with code 1, having invoked exactly the simulated steps up to and
including the failing one, each exactly once (no retry, no later step). -/
theorem stepFailureAborts (target bitfile : String) (flips : Nat → Bool) (k : Nat)
    (hk : k < 5) (hfail : flips k = false) (hprev : ∀ j, j < k → flips j = true) :
    ("[ERROR] " ++ step_error k) ∈ (program_device target bitfile flips true).trace ∧
    (program_device target bitfile flips true).exit = some 1 ∧
    (program_device target bitfile flips true).calls = List.range (k + 1) := by
  interval_cases k
  · simp [program_device, simulate_xilinx_command, step_error, hfail, List.range_succ]
  · have h0 := hprev 0 (by norm_num)
    simp [program_device, simulate_xilinx_command, step_error, h0, hfail, List.range_succ]
  · have h0 := hprev 0 (by norm_num)
    have h1 := hprev 1 (by norm_num)
    simp [program_device, simulate_xilinx_command, step_error, h0, h1, hfail, List.range_succ]
  · have h0 := hprev 0 (by norm_num)
    have h1 := hprev 1 (by norm_num)
    have h2 := hprev 2 (by norm_num)
    simp [program_device, simulate_xilinx_command, step_error, h0, h1, h2, hfail,
      List.range_succ]
  · have h0 := hprev 0 (by norm_num)
    have h1 := hprev 1 (by norm_num)
    have h2 := hprev 2 (by norm_num)
    have h3 := hprev 3 (by norm_num)
    simp [program_device, simulate_xilinx_command, step_error, h0, h1, h2, h3, hfail,
      List.range_succ]

/-- Witness for C1: with the step-2 coin flip failing, the run aborts
after exactly the first two simulated steps. -/
theorem stepFailureAborts_witness :
    ("[ERROR] " ++ step_error 1) ∈
      (program_device "u50" "top.bit" (fun i => decide (i < 1)) true).trace ∧
    (program_device "u50" "top.bit" (fun i => decide (i < 1)) true).exit = some 1 ∧
    (program_device "u50" "top.bit" (fun i => decide (i < 1)) true).calls = List.range 2 :=
  stepFailureAborts "u50" "top.bit" (fun i => decide (i < 1)) 1 (by norm_num) (by decide)
    (fun j hj => decide_eq_true hj)

/-- C2 counterexample: with every coin flip succeeding and the
bitstream file missing, the run is fatal (exit code 1) but the simulated
output of step 1 was produced first: its `[SIM]` line is in the trace
and one simulated call was executed. -/
theorem missingBitstreamCounterexample :
    (program_device "u50" "top.bit" (fun _ => true) false).exit = some 1 ∧
    ("[SIM] " ++ step_cmd "u50" "top.bit" 0) ∈
      (program_device "u50" "top.bit" (fun _ => true) false).trace ∧
    (program_device "u50" "top.bit" (fun _ => true) false).calls = [0] := by decide

/-- C2 (amended): when the step-1 coin flip succeeds and the bitstream
file is missing, `program_device` exits with code 1 at the step-2 file
check, after exactly the step-1 simulated invocation and before any
further simulated step. -/
theorem missingBitstreamAborts (target bitfile : String) (flips : Nat → Bool)
    (h0 : flips 0 = true) :
    (program_device target bitfile flips false).exit = some 1 ∧
    ("[ERROR] Bitstream \x27" ++ bitfile ++ "\x27 not found. Generate with Vivado first.")
      ∈ (program_device target bitfile flips false).trace ∧
    (program_device target bitfile flips false).calls = [0] := by
  simp [program_device, simulate_xilinx_command, h0]

/-- Witness for the amended C2 at concrete inputs. -/
theorem missingBitstreamAborts_witness :
    (program_device "u50" "top.bit" (fun _ => true) false).exit = some 1 ∧
    ("[ERROR] Bitstream \x27" ++ "top.bit" ++ "\x27 not found. Generate with Vivado first.")
      ∈ (program_device "u50" "top.bit" (fun _ => true) false).trace ∧
    (program_device "u50" "top.bit" (fun _ => true) false).calls = [0] :=
  missingBitstreamAborts "u50" "top.bit" (fun _ => true) rfl

/-- The FPGA temperature in centi-degrees is an exact integer. -/
lemma temp_fpga_floor (r : Nat) : ⌊temp_fpga r * 100⌋ = 6250 + (adc_fpga r - 0x3E80) := by
  have h : temp_fpga r * 100 = ((6250 + (adc_fpga r - 0x3E80) : Int) : ℚ) := by
    unfold temp_fpga
    push_cast
    ring
  rw [h, Int.floor_intCast]

/-- The HBM temperature in centi-degrees is an exact integer. -/
lemma temp_hbm_floor (r : Nat) : ⌊temp_hbm r * 100⌋ = 5820 + (adc_hbm r - 0x3B60) := by
  have h : temp_hbm r * 100 = ((5820 + (adc_hbm r - 0x3B60) : Int) : ℚ) := by
    unfold temp_hbm
    push_cast
    ring
  rw [h, Int.floor_intCast]

/-- C3: for every generated payload the transmitted and received 16-bit
additive checksums agree (both come from the same buffer), the PASS line
is printed, and the data-mismatch FAIL line is never printed. -/
theorem pcieChecksumRoundTrip (bits : Nat → Nat) :
    pcie_checksum_tx bits = pcie_checksum_rx bits ∧
    pcie_pass_line (pcie_checksum_rx bits) ∈ run_pcie_test bits ∧
    pcie_fail_line ∉ run_pcie_test bits := by
  refine ⟨rfl, pcie_pass_mem bits, ?_⟩
  rw [run_pcie_test_eq]
  intro hmem
  rcases List.mem_append.mp hmem with hc | hp
  · exact absurd hc (by decide)
  · exact pcie_pass_ne_fail _ (List.mem_singleton.mp hp).symm

/-- C4 counterexample: at seed (0, 0), `read_temp` produces no output
line containing any of the keywords PASS, FAIL, OK, Calibrated, Idle. -/
theorem readTempNoKeywordCounterexample :
    (read_temp 0 0).any hasStatusKeyword = false := by
  have hF : fmt2f (temp_fpga 0) = "62.34" := by
    simp only [fmt2f, temp_fpga_floor]
    decide
  have hH : fmt2f (temp_hbm 0) = "58.12" := by
    simp only [fmt2f, temp_hbm_floor]
    decide
  simp only [read_temp, hF, hH]
  decide

/-- C4 (amended): menu commands 1, 2 and 4 always produce at least one
output line containing a status keyword, for every random seed;
command 3 (`read_temp`) does not (see the counterexample). -/
theorem menuKeywordLines (rHbm rLat : Nat) (pbits sbits : Nat → Nat) :
    (check_hbm_status rHbm).any hasStatusKeyword = true ∧
    (run_pcie_test pbits).any hasStatusKeyword = true ∧
    (send_data sbits rLat).any hasStatusKeyword = true := by
  refine ⟨?_, ?_, ?_⟩
  · by_cases h : rHbm % 2 = 0
    · have hc : check_hbm_status rHbm = check_hbm_status 0 := by
        simp [check_hbm_status, hbm_calibrated, hbm_reg_dump, hbm_raw_status, choice2, h]
      rw [hc]; decide
    · have hc : check_hbm_status rHbm = check_hbm_status 1 := by
        simp [check_hbm_status, hbm_calibrated, hbm_reg_dump, hbm_raw_status, choice2, h]
      rw [hc]; decide
  · rw [List.any_eq_true]
    refine ⟨pcie_pass_line (pcie_checksum_rx pbits), pcie_pass_mem pbits, ?_⟩
    apply hasStatusKeyword_of_PASS
    rw [pcie_pass_line]
    apply pyIn_append_left
    apply pyIn_append_left
    decide
  · rw [List.any_eq_true]
    refine ⟨"[RECV] Kernel_0 returned status OK. Latency: " ++
      toString (send_latency rLat) ++ " us.", by simp [send_data], ?_⟩
    apply hasStatusKeyword_of_OK
    apply pyIn_append_left
    apply pyIn_append_left
    decide

/-- Witness for C9 at a concrete unparsable query output. -/
theorem deviceInfoFallback_witness :
    (get_device_info (QueryResult.success ["junk"])).firmware = "alveo_u50_top.bit" ∧
    (get_device_info (QueryResult.success ["junk"])).device =
      "xilinx_u50_gen3x16_xdma_201920_3" := by
  refine ⟨(deviceInfoFallback (QueryResult.success ["junk"])).1, ?_⟩
  have h := (deviceInfoFallback (QueryResult.success ["junk"])).2.2.2.1 ["junk"] (by decide)
  simpa [fallback_info] using h

/-- C7: an unrecognized input line only prints the error line and the
acknowledgment prompt and the loop continues unchanged (same device
record, same remaining behavior, no diagnostic output); the quit command
is accepted as both `q` and `Q` and ends the process with exit code 0. -/
theorem invalidInputAndQuit (d : DeviceInfo) (rands : Nat → IterRand) (s ack : String)
    (rest : List String) (h1 : s ∉ (["1", "2", "3", "4"] : List String))
    (h2 : pyLower s ≠ "q") :
    run_menu d rands (s :: ack :: rest) =
      (print_header d ++ main_menu_lines ++
        ["\nInvalid option.", "\nPress [Enter] to return to the menu..."] ++
        (run_menu d (fun n => rands (n + 1)) rest).1,
       (run_menu d (fun n => rands (n + 1)) rest).2) ∧
    run_menu d rands ("q" :: rest) =
      (print_header d ++ main_menu_lines ++ ["\nDisconnecting from device..."], some 0) ∧
    run_menu d rands ("Q" :: rest) =
      (print_header d ++ main_menu_lines ++ ["\nDisconnecting from device..."], some 0) := by
  simp only [List.mem_cons, List.not_mem_nil, or_false, not_or] at h1
  obtain ⟨hn1, hn2, hn3, hn4⟩ := h1
  have hd : dispatch s = MenuAction.invalid := by
    simp [dispatch, hn1, hn2, hn3, hn4, h2]
  have hq : dispatch "q" = MenuAction.quit := by decide
  have hQ : dispatch "Q" = MenuAction.quit := by decide
  refine ⟨?_, ?_, ?_⟩
  · simp [run_menu, hd, runCommand]
  · simp [run_menu, hq]
  · simp [run_menu, hQ]

/-- Witness for C7: input `x` is rejected without dispatch, and `q` /
`Q` quit with exit code 0. -/
theorem invalidInputAndQuit_witness :
    run_menu devinfo0 rands0 ["x", ""] =
      (print_header devinfo0 ++ main_menu_lines ++
        ["\nInvalid option.", "\nPress [Enter] to return to the menu..."] ++
        (run_menu devinfo0 (fun n => rands0 (n + 1)) []).1,
       (run_menu devinfo0 (fun n => rands0 (n + 1)) []).2) ∧
    run_menu devinfo0 rands0 ["q"] =
      (print_header devinfo0 ++ main_menu_lines ++ ["\nDisconnecting from device..."], some 0) ∧
    run_menu devinfo0 rands0 ["Q"] =
      (print_header devinfo0 ++ main_menu_lines ++ ["\nDisconnecting from device..."], some 0) :=
  invalidInputAndQuit devinfo0 rands0 "x" "" [] (by decide) (by decide)

/-- C10: dispatch matches the whole input line: a diagnostic runs iff
the line is exactly its digit, the loop quits iff the line lower-cases
to exactly `q`, and lines with extra characters are invalid. -/
theorem dispatchExactMatch (s : String) (d : DeviceInfo) (rands : Nat → IterRand) :
    (dispatch s = MenuAction.cmd1 ↔ s = "1") ∧
    (dispatch s = MenuAction.cmd2 ↔ s = "2") ∧
    (dispatch s = MenuAction.cmd3 ↔ s = "3") ∧
    (dispatch s = MenuAction.cmd4 ↔ s = "4") ∧
    (dispatch s = MenuAction.quit ↔ pyLower s = "q") ∧
    dispatch "1 " = MenuAction.invalid ∧
    dispatch "q!" = MenuAction.invalid ∧
    ((run_menu d rands [s]).2 = some 0 ↔ pyLower s = "q") := by
  have hx : dispatch "1 " = MenuAction.invalid := by decide
  have hy : dispatch "q!" = MenuAction.invalid := by decide
  by_cases e1 : s = "1"
  · subst e1
    have hd : dispatch "1" = MenuAction.cmd1 := by decide
    have hq : pyLower "1" = "q" ↔ False := by decide
    simp [run_menu, hd, hq, hx, hy]
  by_cases e2 : s = "2"
  · subst e2
    have hd : dispatch "2" = MenuAction.cmd2 := by decide
    have hq : pyLower "2" = "q" ↔ False := by decide
    simp [run_menu, hd, hq, hx, hy]
  by_cases e3 : s = "3"
  · subst e3
    have hd : dispatch "3" = MenuAction.cmd3 := by decide
    have hq : pyLower "3" = "q" ↔ False := by decide
    simp [run_menu, hd, hq, hx, hy]
  by_cases e4 : s = "4"
  · subst e4
    have hd : dispatch "4" = MenuAction.cmd4 := by decide
    have hq : pyLower "4" = "q" ↔ False := by decide
    simp [run_menu, hd, hq, hx, hy]
  by_cases e5 : pyLower s = "q"
  · have hd : dispatch s = MenuAction.quit := by simp [dispatch, e1, e2, e3, e4, e5]
    simp [run_menu, hd, hx, hy, e1, e2, e3, e4, e5]
  · have hd : dispatch s = MenuAction.invalid := by simp [dispatch, e1, e2, e3, e4, e5]
    simp [run_menu, hd, hx, hy, e1, e2, e3, e4, e5]

end RunProg
